import Mathlib

/-!
Verification development for the natural-language-to-SQL query service
(`prompt_handler.py` and the services it orchestrates).  Python code is
shallowly embedded: pure functions become Lean functions, I/O-dependent
steps (Bedrock, psycopg, valkey, secrets) are parameters of an explicit
environment, and raised Python exceptions become `Except` errors.
Similarity scores are modelled as rationals.
-/

namespace PgTextToSql

/-! ## Identifier validation — src/code/util/postgres_validation.py -/

/-- The reserved-word set from postgres_validation.py lines 24-35, verbatim. -/
def POSTGRES_RESERVED_WORDS : List String :=
  ["all", "analyse", "analyze", "and", "any", "array", "as", "asc", "asymmetric",
   "authorization", "binary", "both", "case", "cast", "check", "collate", "collation",
   "column", "concurrently", "constraint", "create", "cross", "current_catalog",
   "current_date", "current_role", "current_schema", "current_time", "current_timestamp",
   "current_user", "default", "deferrable", "desc", "distinct", "do", "else", "end",
   "except", "false", "fetch", "for", "foreign", "freeze", "from", "full", "grant",
   "group", "having", "ilike", "in", "initially", "inner", "intersect", "into", "is",
   "isnull", "join", "lateral", "leading", "left", "like", "limit", "localtime",
   "localtimestamp", "natural", "not", "notnull", "null", "offset", "on", "only", "or",
   "order", "outer", "overlaps", "placing", "primary", "references", "returning",
   "right", "select", "session_user", "similar", "some", "symmetric", "system_user",
   "table", "tablesample", "then", "to", "trailing", "true", "union", "unique", "user",
   "using", "variadic", "verbose", "when", "where", "window", "with"]

/-- Character class `[a-zA-Z_]` of the identifier regex. -/
def isIdentStartChar (c : Char) : Bool :=
  (('a' ≤ c && c ≤ 'z') || ('A' ≤ c && c ≤ 'Z') || c = '_')

/-- Character class `[a-zA-Z0-9_$]` of the identifier regex. -/
def isIdentChar (c : Char) : Bool :=
  isIdentStartChar c || ('0' ≤ c && c ≤ '9') || c = '$'

/-- The negative lookahead `(?!pg_)` anchored at the start of the string
(case-sensitive, exactly the three characters p, g, underscore). -/
def hasPgStart : List Char → Bool
  | 'p' :: 'g' :: '_' :: _ => true
  | _ => false

/-- Python's `$` anchor also matches just before a single trailing newline,
so `re.match(r"^...$", s)` accepts `s` with one trailing newline stripped. -/
def stripTrailingNewline (cs : List Char) : List Char :=
  if cs.getLast? = some '\n' then cs.dropLast else cs

/-- Body `[a-zA-Z_][a-zA-Z0-9_$]*` of the regex, applied to the whole string. -/
def matchesIdentCore : List Char → Bool
  | [] => false
  | c :: rest => isIdentStartChar c && rest.all isIdentChar

/-- Full regex test `re.match(r"^(?!pg_)[a-zA-Z_][a-zA-Z0-9_$]*$", name)` as a Bool
(`$` tolerates one trailing newline; the lookahead applies at position 0
of the original string). -/
def matchesIdentPattern (name : String) : Bool :=
  let cs := name.toList
  !(hasPgStart cs) && matchesIdentCore (stripTrailingNewline cs)

/-- Python's `name.lower()`, character-wise (the reserved words are pure
ASCII, for which per-character lowering agrees with `str.lower`). -/
def pyLower (s : String) : String := String.mk (s.toList.map Char.toLower)

/-- is_valid_postgres_identifier (postgres_validation.py lines 38-52):
regex match, then `len(name.encode("utf-8")) > 63` rejection, then
case-insensitive reserved-word rejection. -/
def is_valid_postgres_identifier (name : String) : Bool :=
  matchesIdentPattern name
    && name.utf8ByteSize ≤ 63
    && !(POSTGRES_RESERVED_WORDS.contains (pyLower name))

/-! ## Semantic-cache lookup entries and the admission decision
(prompt_handler.py lines 115-136) -/

/-- One flattened search result as produced by `CacheService.search`
(cache.py lines 133-145): every field key is present, the text fields may
be missing on the stored hash (then `None`), and `vector_score` is the
rounded `1 - distance` similarity. -/
structure CacheEntry where
  id : String
  sql_statement : Option String
  text_response : Option String
  query_results : Option String
  prompt_text : Option String
  schema_text : Option String
  column_names : Option String
  vector_score : ℚ
deriving DecidableEq

/-- VECTOR_SCORE_THRESHOLD = 0.85 (prompt_handler.py line 51). -/
def VECTOR_SCORE_THRESHOLD : ℚ := mkRat 85 100

/-- The exact-match loop of prompt_handler.py lines 117-124: iterate over all
lookup results and remember any entry whose stored `prompt_text` equals the
incoming prompt (the last such entry wins). -/
def findExactMatch (lookup : List CacheEntry) (prompt : String) : Option CacheEntry :=
  lookup.foldl (fun acc e => if e.prompt_text = some prompt then some e else acc) none

/-- Which branch of the cache-hit/miss decision fired. -/
inductive CacheDecision where
  | exact : CacheEntry → CacheDecision
  | vector : CacheEntry → CacheDecision
  | miss : CacheDecision
deriving DecidableEq

/-- The two-tier admission policy of prompt_handler.py lines 117-136:
first priority an exact text match (regardless of score), second priority
`float(cache_lookup[0]["vector_score"]) >= VECTOR_SCORE_THRESHOLD` on the
first (highest-similarity) entry only, otherwise a miss. -/
def cacheDecision (lookup : List CacheEntry) (prompt : String) : CacheDecision :=
  match findExactMatch lookup prompt with
  | some e => CacheDecision.exact e
  | none =>
    match lookup with
    | [] => CacheDecision.miss
    | top :: _ =>
      if VECTOR_SCORE_THRESHOLD ≤ top.vector_score then CacheDecision.vector top
      else CacheDecision.miss

/-! ## Python values, exceptions and observable effects -/

/-- A small universe of Python values, enough for the request/response
bodies that flow through the handler. -/
inductive PyVal where
  | pyNone : PyVal
  | str : String → PyVal
  | list : List PyVal → PyVal
  | tuple : List PyVal → PyVal

/-- A database row, as returned by the psycopg cursor (a tuple of values). -/
abbrev Row := List PyVal

/-- The Python exceptions that can escape the handler (uncaught ⇒ the Lambda
invocation fails at the transport level instead of returning a JSON body). -/
inductive PyError where
  | typeError : PyError
  | attributeError : PyError
  | invalidNameError : String → String → PyError
  | dbConnectError : PyError
  | valkeyConnectionError : PyError
  | dbExecutionError : PyError
deriving DecidableEq

/-- Externally observable side effects of one request, in program order. -/
inductive Effect where
  | followUpCall : Effect
  | validateIdentifiers : Effect
  | setSecret : Effect
  | dbConnect : Effect
  | embedCall : Effect
  | cacheConnect : Effect
  | cacheSearchCall : Effect
  | schemaCompare : Effect
  | sqlGenCall : Effect
  | sqlExecCall : Effect
  | describeCall : Effect
  | cacheAddCall : Effect
  | storeHset : String → Effect
  | storeExpire : String → Effect
  | connClose : Effect
deriving DecidableEq

/-! ## Tagged-block extraction and SQL generation
(text_to_sql.py lines 307-356) -/

/-- Scan for the first occurrence of `closeT`; return the content before it
and the remainder after it (the lazy `(.*?)` of the DOTALL regex). -/
def findClose (closeT : List Char) : List Char → Option (List Char × List Char)
  | [] => none
  | c :: rest =>
    if closeT.isPrefixOf (c :: rest) then some ([], (c :: rest).drop closeT.length)
    else
      match findClose closeT rest with
      | some (content, rem) => some (c :: content, rem)
      | none => none

/-- re.findall of `openT(.*?)closeT` with DOTALL: scan left to right, on each
opening tag take the lazily-closed content, continue after the closing tag.
The fuel argument (instantiated with the text length) bounds the scan; each
step consumes at least one character, so the bound is never hit early. -/
def findTagged (openT closeT : List Char) : Nat → List Char → List (List Char)
  | 0, _ => []
  | _, [] => []
  | fuel + 1, c :: rest =>
    if openT.isPrefixOf (c :: rest) then
      match findClose closeT ((c :: rest).drop openT.length) with
      | some (content, rem) => content :: findTagged openT closeT fuel rem
      | none => []
    else findTagged openT closeT fuel rest

/-- All matches of `<tag>(.*?)</tag>` (DOTALL) in `text`. -/
def taggedBlocks (tag : String) (text : String) : List String :=
  let cs := text.toList
  (findTagged ("<" ++ tag ++ ">").toList ("</" ++ tag ++ ">").toList cs.length cs).map
    fun l => String.mk l

/-- Matches of `sql_regex.findall(text_content)`, text_to_sql.py lines 328-329. -/
def sqlStatements (text : String) : List String := taggedBlocks "sql" text

/-- What `TextToSQL.get_sql_from_bedrock` returns: either the
`(sql_statements[0], params)` pair or, when no `<sql>` block was found, the
dict `{"statusCode": 500, "body": {...}, "headers": {...}}` (lines 339-342). -/
inductive GenResult where
  | pair : String → List PyVal → GenResult
  | errorDict : GenResult

/-- Python truthiness of the value returned by get_sql_from_bedrock: a
2-tuple is a non-empty tuple and the error dict has three keys, so both are
truthy and `if not sql:` in prompt_handler.py line 155 can never fire. -/
def GenResult.pyTruthy : GenResult → Bool
  | GenResult.pair _ _ => true
  | GenResult.errorDict => true

/-- get_sql_from_bedrock (text_to_sql.py lines 307-356) given the raw model
response text. `literalEval` stands for `ast.literal_eval`, with `none`
modelling the exception that is caught and replaced by empty params. -/
def get_sql_from_bedrock (literalEval : String → Option (List PyVal))
    (responseText : String) : GenResult :=
  match sqlStatements responseText with
  | [] => GenResult.errorDict
  | sql :: _ =>
    let params :=
      match taggedBlocks "params" responseText with
      | [] => []
      | p :: _ => (literalEval p).getD []
    GenResult.pair sql params

/-- execute_sql (text_to_sql.py lines 358-394). `runSql` is the database:
it yields the fetched rows and column names, or the driver exception.
A tuple argument is unpacked into (sql, params); any other value — in
particular the error dict — is passed to `cursor.execute` as the query,
which raises TypeError because psycopg requires a string query. -/
def execute_sql (runSql : String → List PyVal → Except PyError (List Row × List String)) :
    GenResult → Except PyError (List Row × List String)
  | GenResult.pair sql params => runSql sql params
  | GenResult.errorDict => Except.error PyError.typeError

/-- The generated statement as a Python value (the `(sql, params)` tuple);
the error dict never reaches this point because executing it raises first. -/
def genQueryPyVal : GenResult → PyVal
  | GenResult.pair sql params => PyVal.tuple [PyVal.str sql, PyVal.list params]
  | GenResult.errorDict => PyVal.pyNone

/-! ## Schema-retrieval index (indexer.py lines 211-289) -/

/-- One row of the similarity query in compare_embeddings (indexer.py
lines 272-285): identifying names, rendered schema text and the cosine
similarity `1 - (embedding <=> prompt)` computed by the database. -/
structure SchemaRow where
  database : String
  schemaName : String
  tableName : String
  embedding_text : String
  similarity : ℚ
deriving DecidableEq

/-- Ranking relation of `ORDER BY similarity DESC`. -/
def simDescRel (a b : SchemaRow) : Prop := b.similarity ≤ a.similarity

instance : DecidableRel simDescRel :=
  fun a b => inferInstanceAs (Decidable (b.similarity ≤ a.similarity))

instance : IsTotal SchemaRow simDescRel :=
  ⟨fun a b => le_total b.similarity a.similarity⟩

instance : IsTrans SchemaRow simDescRel :=
  ⟨fun _ _ _ hab hbc => le_trans hbc hab⟩

/-- compare_embeddings (indexer.py lines 250-289): the SQL orders the stored
rows by similarity descending (embedded as a deterministic insertion sort,
a refinement of `ORDER BY similarity DESC`) and limits to `top_k`; the
comprehension then keeps only rows with `float(row[4]) > 0.10`. -/
def compare_embeddings (stored : List SchemaRow) (top_k : Nat := 5) : List SchemaRow :=
  ((List.insertionSort simDescRel stored).take top_k).filter
    fun r => decide (mkRat 1 10 < r.similarity)

/-- One row of the `embeddings` table / one metadata dict of
create_embedding_string (indexer.py lines 183-189). -/
structure EmbRow where
  database_name : String
  schema_name : String
  table_name : String
  embedding_text : String
  embedding_hash : String
  embedding : List ℚ
deriving DecidableEq

/-- The WHERE clause of the existence check in store_embeddings (indexer.py
lines 232-235): same database, schema, table and content hash. -/
def sameKey (r d : EmbRow) : Bool :=
  (r.database_name == d.database_name) && (r.schema_name == d.schema_name)
    && (r.table_name == d.table_name) && (r.embedding_hash == d.embedding_hash)

/-- The body of the store_embeddings loop for one descriptor (indexer.py
lines 231-248): if a row with the same key tuple exists, skip (`continue`);
otherwise insert the descriptor as a new row. -/
def upsertEmbedding (table : List EmbRow) (d : EmbRow) : List EmbRow :=
  if table.any fun r => sameKey r d then table else table ++ [d]

/-- store_embeddings (indexer.py lines 211-248): fold the single-descriptor
upsert over the metadata list. -/
def store_embeddings (table : List EmbRow) (ds : List EmbRow) : List EmbRow :=
  ds.foldl upsertEmbedding table

/-- Number of stored rows matching a descriptor's key tuple. -/
def countKey (table : List EmbRow) (d : EmbRow) : Nat :=
  (table.filter fun r => sameKey r d).length

/-! ## Vector wire format (cache.py lines 218-228)

`array("f", vector).tobytes()` stores each element as an IEEE-754 single
(float32) in 4 little-endian bytes.  A float32 is modelled by its 32-bit
pattern (a Nat below 2^32); the narrowing conversion from a Python float to
that pattern is the "single-precision accuracy" rounding of the spec, and
serialization is exact on the patterns. -/

/-- Four little-endian bytes of one 32-bit float pattern. -/
def word32ToLEBytes (w : Nat) : List Nat :=
  [w % 256, w / 256 % 256, w / 65536 % 256, w / 16777216 % 256]

/-- Serialization `_vector_to_bytes`: concatenate the 4-byte encodings of the elements. -/
def vector_to_bytes : List Nat → List Nat
  | [] => []
  | w :: ws => word32ToLEBytes w ++ vector_to_bytes ws

/-- Modelled from the spec: "converting a float sequence to its binary wire
form and back" — the decoder is the store's FLOAT32 vector reader, not code
of this repository; it reads consecutive 4-byte little-endian groups back
into float32 patterns. -/
def bytesToWords : List Nat → List Nat
  | b0 :: b1 :: b2 :: b3 :: rest => (b0 + 256 * b1 + 65536 * b2 + 16777216 * b3) :: bytesToWords rest
  | _ => []

/-! ## Cache service (cache.py) -/

/-- connect_to_cluster (cache.py lines 56-75): on success the client is set
(and the index ensured); on any exception the error is logged and the method
returns normally, leaving `valkey_client` as it was (still `None` for a
freshly constructed service). Result: (client set?, error logged?). -/
def connect_to_cluster (reachable : Bool) (client : Bool) : Bool × Bool :=
  if reachable then (true, false) else (client, true)

/-- search (cache.py lines 107-148). The method has no exception handling:
with `valkey_client = None` the `.ft` attribute access raises
AttributeError, and with an unreachable cluster the search call raises a
connection error; both propagate to the caller. On success it returns the
flattened result dicts. -/
def cacheSearch (client clusterUp : Bool) (results : List CacheEntry) :
    Except PyError (List CacheEntry) :=
  if client = false then Except.error PyError.attributeError
  else if clusterUp = false then Except.error PyError.valkeyConnectionError
  else Except.ok results

/-- The `data` dict assembled by the handler for `cache.add`
(prompt_handler.py lines 169-171). -/
structure CacheData where
  sql_statement : PyVal
  text_response : String
  query_results : String
  column_names : List String
  schema_text : String
  prompt_text : String

/-- add (cache.py lines 150-203). The hashed key is
`f"{prefix}:{sha256(key)}"`; the mapping construction (json.dumps / str
conversions) is pure. `if not data["text_response"]: return False` fires
before any store call. Inside the try block, `hset` on a `None` client
raises AttributeError (not a ValkeyError, hence not caught); a ValkeyError
from an unreachable cluster or a failed hset is caught and `False` is
returned; otherwise the key is set, given a 600-second expiry, and `True`
is returned. The returned list holds the store mutations performed (the
`ttl`/`hget` verification calls are read-only). -/
def cacheAdd (client clusterUp hsetOk : Bool) (sha256hex : String → String)
    (key : String) (data : CacheData) (ns : String) :
    Except PyError (Bool × List Effect) :=
  let hashedKey := ns ++ ":" ++ sha256hex key
  if data.text_response = "" then Except.ok (false, [])
  else if client = false then Except.error PyError.attributeError
  else if clusterUp = false then Except.ok (false, [])
  else if hsetOk = false then Except.ok (false, [])
  else Except.ok (true, [Effect.storeHset hashedKey, Effect.storeExpire hashedKey])

/-! ## The orchestrator — prompt_handler.py lambda_handler (lines 60-196) -/

/-- The JSON body of a handler response. `none` in an `Option` field means
the key is absent from the dict (the follow-up body has no `column_names`
key and the no-SQL 500 body has only `response`). -/
structure Body where
  response : PyVal
  query : Option PyVal
  query_results : Option PyVal
  column_names : Option PyVal
  cache_id : Option PyVal

/-- Which return statement produced the response. -/
inductive ExitPath where
  | followUpAnswered : ExitPath
  | noSqlGenerated : ExitPath
  | cacheMiss : ExitPath
  | cacheHit : ExitPath
deriving DecidableEq

/-- Either a JSON response (status code and body) or an uncaught Python
exception escaping lambda_handler. -/
inductive Outcome where
  | response : ExitPath → Nat → Body → Outcome
  | exception : PyError → Outcome

/-- The request environment: configuration and the behaviour of every
external collaborator (Bedrock, the database, the cache cluster, stdlib
serialization) during this invocation. -/
structure Env where
  dbName : String
  dbSchema : String
  followUpOf : String → Bool × PyVal
  dbConnectOk : Bool
  cacheReachable : Bool
  clusterUp : Bool
  cacheResults : List CacheEntry
  storedSchemaRows : List SchemaRow
  bedrockSqlText : String
  literalEval : String → Option (List PyVal)
  runSql : String → List PyVal → Except PyError (List Row × List String)
  describeText : String
  jsonLoadsPair : String → Option (String × List PyVal)
  sha256hex : String → String
  pyStrRows : List Row → String
  hsetOk : Bool

/-- Lines 88-89 / 109-110: `"\n".join(f"{role}: {content}" ...)` followed by
`f"\nHuman: {prompt}"`. -/
def mkFullPrompt (ctx : List (String × String)) (prompt : String) : String :=
  String.intercalate "\n" (ctx.map fun t => t.1 ++ ": " ++ t.2) ++ "\nHuman: " ++ prompt

/-- Cache-hit return (prompt_handler.py lines 176-192): the stored
`sql_statement` is JSON-decoded into the `[query, params]` pair when it is
truthy and starts with `[` (a failed decode keeps the raw string); the other
body fields come straight from the stored entry. `jsonLoadsPair` stands for
`json.loads` on the format written by `cache.add` (`none` = JSONDecodeError). -/
def hitResponse (env : Env) (entry : CacheEntry) (effs : List Effect) :
    Outcome × List Effect :=
  let queryVal : PyVal :=
    match entry.sql_statement with
    | none => PyVal.pyNone
    | some s =>
      if s.toList.head? = some '[' then
        match env.jsonLoadsPair s with
        | some (q, ps) => PyVal.list [PyVal.str q, PyVal.list ps]
        | none => PyVal.str s
      else PyVal.str s
  (Outcome.response ExitPath.cacheHit 200
    { response := (entry.text_response.map PyVal.str).getD PyVal.pyNone,
      query := some queryVal,
      query_results := some ((entry.query_results.map PyVal.str).getD PyVal.pyNone),
      column_names := some ((entry.column_names.map PyVal.str).getD PyVal.pyNone),
      cache_id := some (PyVal.str entry.id) },
   effs ++ [Effect.connClose])

/-- The try block of prompt_handler.py lines 107-196. Every exit, normal or
exceptional, runs the `finally` clause (connection close). -/
def tryBody (env : Env) (prompt : String) (effs : List Effect) :
    Outcome × List Effect :=
  let client := (connect_to_cluster env.cacheReachable false).1
  let effsA := effs ++ [Effect.embedCall, Effect.cacheConnect, Effect.cacheSearchCall]
  match cacheSearch client env.clusterUp env.cacheResults with
  | Except.error e => (Outcome.exception e, effsA ++ [Effect.connClose])
  | Except.ok lookup =>
    match cacheDecision lookup prompt with
    | CacheDecision.exact entry => hitResponse env entry effsA
    | CacheDecision.vector entry => hitResponse env entry effsA
    | CacheDecision.miss =>
      let schemaResults := compare_embeddings env.storedSchemaRows 5
      let schemaContextText :=
        String.intercalate "\n\n" (schemaResults.map SchemaRow.embedding_text)
      let effsB := effsA ++ [Effect.embedCall, Effect.schemaCompare, Effect.sqlGenCall]
      let sql := get_sql_from_bedrock env.literalEval env.bedrockSqlText
      if sql.pyTruthy = false then
        (Outcome.response ExitPath.noSqlGenerated 500
          { response :=
              PyVal.str "Unable to generate SQL for the provided prompt, please try again.",
            query := none, query_results := none, column_names := none, cache_id := none },
         effsB ++ [Effect.connClose])
      else
        let effsC := effsB ++ [Effect.sqlExecCall]
        match execute_sql env.runSql sql with
        | Except.error e => (Outcome.exception e, effsC ++ [Effect.connClose])
        | Except.ok (rows, cols) =>
          let effsD := effsC ++ [Effect.describeCall, Effect.cacheAddCall]
          let cacheData : CacheData :=
            { sql_statement := genQueryPyVal sql,
              text_response := env.describeText,
              query_results := env.pyStrRows rows,
              column_names := cols,
              schema_text := schemaContextText,
              prompt_text := prompt }
          match cacheAdd client env.clusterUp env.hsetOk env.sha256hex prompt cacheData
              "cache" with
          | Except.error e => (Outcome.exception e, effsD ++ [Effect.connClose])
          | Except.ok res =>
            (Outcome.response ExitPath.cacheMiss 200
              { response := PyVal.str env.describeText,
                query := some (genQueryPyVal sql),
                query_results := some (PyVal.list (rows.map PyVal.tuple)),
                column_names := some (PyVal.list (cols.map PyVal.str)),
                cache_id := some PyVal.pyNone },
             effsD ++ res.2 ++ [Effect.connClose])

/-- Lines 101-106: identifier validation and database connection. Note the
guard is literally `if not (valid(db) or valid(schema)): raise`, so the
exception fires only when BOTH identifiers are invalid. -/
def handlerMain (env : Env) (prompt : String) (eff0 : List Effect) :
    Outcome × List Effect :=
  let effs := eff0 ++ [Effect.validateIdentifiers]
  if (is_valid_postgres_identifier env.dbName
      || is_valid_postgres_identifier env.dbSchema) = false then
    (Outcome.exception (PyError.invalidNameError env.dbSchema env.dbName), effs)
  else
    let effs2 := effs ++ [Effect.setSecret, Effect.dbConnect]
    if env.dbConnectOk = false then (Outcome.exception PyError.dbConnectError, effs2)
    else tryBody env prompt effs2

/-- lambda_handler (prompt_handler.py lines 60-196).
`event.get('conversation_context', [])` makes an absent context the empty
list; the follow-up classification runs only when the context is truthy,
and an `is_follow_up` verdict returns immediately with the fixed sentinel
query and empty results, before any validation, connection, embedding or
cache access. -/
def lambda_handler (env : Env) (prompt : String)
    (ctxOpt : Option (List (String × String))) : Outcome × List Effect :=
  let ctx := ctxOpt.getD []
  if ctx.isEmpty then handlerMain env prompt []
  else
    let fullPrompt := mkFullPrompt ctx prompt
    let fu := env.followUpOf fullPrompt
    if fu.1 then
      (Outcome.response ExitPath.followUpAnswered 200
        { response := fu.2,
          query := some (PyVal.str "Follow-up question answered directly"),
          query_results := some (PyVal.list []),
          column_names := none,
          cache_id := some PyVal.pyNone },
       [Effect.followUpCall])
    else handlerMain env prompt [Effect.followUpCall]

/-! ## Concrete environments used by the closed theorems and witnesses -/

/-- A benign environment: valid configured identifiers, reachable database
and cache, an empty cache and index, and a generation response containing a
well-formed SQL block. -/
def baseEnv : Env where
  dbName := "postgres"
  dbSchema := "public"
  followUpOf := fun _ => (false, PyVal.pyNone)
  dbConnectOk := true
  cacheReachable := true
  clusterUp := true
  cacheResults := []
  storedSchemaRows := []
  bedrockSqlText := "<sql>SELECT 1</sql>"
  literalEval := fun _ => none
  runSql := fun _ _ => Except.ok ([], [])
  describeText := "There is one row."
  jsonLoadsPair := fun _ => none
  sha256hex := fun _ => "0abc"
  pyStrRows := fun _ => "[]"
  hsetOk := true

/-- Environment whose generation response contains no `<sql>` block. -/
def noSqlEnv : Env := { baseEnv with bedrockSqlText := "I cannot write SQL for this." }

/-- Environment with a valid database name and an invalid (reserved-word)
schema name. -/
def badSchemaEnv : Env := { baseEnv with dbSchema := "select" }

/-- Environment whose cache cluster is unreachable. -/
def cacheDownEnv : Env := { baseEnv with cacheReachable := false }

/-- Environment whose follow-up classifier answers the question directly. -/
def followUpEnv : Env :=
  { baseEnv with followUpOf := fun _ => (true, PyVal.str "Answered from context") }

/-- Demo cache entries: the top-ranked entry stores a different prompt, a
lower-ranked one stores the incoming prompt verbatim. -/
def demoEntryTop : CacheEntry where
  id := "cache:aa"
  sql_statement := some "SELECT count(id) FROM users"
  text_response := some "There are 41 users."
  query_results := some "[(41,)]"
  prompt_text := some "How many users exist"
  schema_text := some "Table: users"
  column_names := some "[\x22count\x22]"
  vector_score := mkRat 97 100

/-- A lower-similarity entry whose stored prompt equals the incoming one. -/
def demoEntryExact : CacheEntry where
  id := "cache:bb"
  sql_statement := some "SELECT count(1) FROM users"
  text_response := some "There are 42 users."
  query_results := some "[(42,)]"
  prompt_text := some "How many users are there"
  schema_text := some "Table: users"
  column_names := some "[\x22count\x22]"
  vector_score := mkRat 62 100

/-- A lookup result list sorted by similarity descending. -/
def demoLookup : List CacheEntry := [demoEntryTop, demoEntryExact]

/-- Demo relation rows for the retrieval theorems. -/
def demoRowHigh : SchemaRow where
  database := "postgres"
  schemaName := "public"
  tableName := "users"
  embedding_text := "Table: users (Schema: public)"
  similarity := mkRat 9 10

/-- A stored row below the relevance floor. -/
def demoRowLow : SchemaRow where
  database := "postgres"
  schemaName := "public"
  tableName := "audit_log"
  embedding_text := "Table: audit_log (Schema: public)"
  similarity := mkRat 1 20

/-- Stored index contents for the retrieval witness. -/
def demoSchemaRows : List SchemaRow := [demoRowLow, demoRowHigh]

/-- Demo descriptor for the idempotent-indexing witness. -/
def demoEmbRow : EmbRow where
  database_name := "postgres"
  schema_name := "public"
  table_name := "users"
  embedding_text := "Table: users (Schema: public)"
  embedding_hash := "2cf24dba5fb0a30e"
  embedding := [mkRat 1 2, mkRat 1 3]

/-- Demo cache-write payload with an empty natural-language answer. -/
def demoEmptyAnswerData : CacheData where
  sql_statement := PyVal.tuple [PyVal.str "SELECT 1", PyVal.list []]
  text_response := ""
  query_results := "[]"
  column_names := []
  schema_text := "Table: users"
  prompt_text := "How many users are there"

/-- Demo float32 bit patterns (1.0, -1.0, 3.14). -/
def demoVector : List Nat := [1065353216, 3212836864, 1078523331]

/-! ## Helper lemmas -/

theorem foldl_exact_eq_none {p : String} :
    ∀ (l : List CacheEntry) (acc : Option CacheEntry),
      l.foldl (fun a e => if e.prompt_text = some p then some e else a) acc = none →
      acc = none ∧ ∀ e ∈ l, e.prompt_text ≠ some p := by
  intro l
  induction l with
  | nil => exact fun acc h => ⟨h, by simp⟩
  | cons x xs ih =>
    intro acc h
    rw [List.foldl_cons] at h
    obtain ⟨hacc, hxs⟩ := ih _ h
    by_cases hx : x.prompt_text = some p
    · rw [if_pos hx] at hacc; cases hacc
    · rw [if_neg hx] at hacc
      refine ⟨hacc, ?_⟩
      intro e he
      rcases List.mem_cons.mp he with h1 | h2
      · subst h1; exact hx
      · exact hxs e h2

theorem foldl_exact_eq_some {p : String} :
    ∀ (l : List CacheEntry) (acc : Option CacheEntry) (e : CacheEntry),
      l.foldl (fun a x => if x.prompt_text = some p then some x else a) acc = some e →
      (e ∈ l ∧ e.prompt_text = some p) ∨ acc = some e := by
  intro l
  induction l with
  | nil => exact fun acc e h => Or.inr h
  | cons x xs ih =>
    intro acc e h
    rw [List.foldl_cons] at h
    rcases ih _ _ h with ⟨hmem, hp⟩ | hacc
    · exact Or.inl ⟨List.mem_cons_of_mem _ hmem, hp⟩
    · by_cases hx : x.prompt_text = some p
      · rw [if_pos hx] at hacc
        cases hacc
        exact Or.inl ⟨List.mem_cons_self _ _, hx⟩
      · rw [if_neg hx] at hacc
        exact Or.inr hacc

theorem foldl_exact_const {p : String} :
    ∀ (l : List CacheEntry) (acc : Option CacheEntry),
      (∀ e ∈ l, e.prompt_text ≠ some p) →
      l.foldl (fun a x => if x.prompt_text = some p then some x else a) acc = acc := by
  intro l
  induction l with
  | nil => exact fun acc _ => rfl
  | cons x xs ih =>
    intro acc hno
    rw [List.foldl_cons, if_neg (hno x (List.mem_cons_self _ _))]
    exact ih _ fun e he => hno e (List.mem_cons_of_mem _ he)

theorem cacheAdd_ok_no_followUp (client clusterUp hsetOk : Bool)
    (sha : String → String) (key : String) (data : CacheData) (ns : String)
    (res : Bool × List Effect)
    (h : cacheAdd client clusterUp hsetOk sha key data ns = Except.ok res) :
    Effect.followUpCall ∉ res.2 := by
  simp only [cacheAdd] at h
  split at h
  · injection h with h2
    rw [← h2]
    simp
  · split at h
    · cases h
    · split at h
      · injection h with h2
        rw [← h2]
        simp
      · split at h
        · injection h with h2
          rw [← h2]
          simp
        · injection h with h2
          rw [← h2]
          simp

theorem tryBody_mem_effsA (env : Env) (prompt : String) (effs : List Effect)
    (e : Effect)
    (h : e ∈ effs ++ [Effect.embedCall, Effect.cacheConnect, Effect.cacheSearchCall]) :
    e ∈ (tryBody env prompt effs).2 := by
  simp only [tryBody]
  split
  · simp [List.mem_append] at h ⊢
    tauto
  · split
    · simp only [hitResponse]
      simp [List.mem_append] at h ⊢
      tauto
    · simp only [hitResponse]
      simp [List.mem_append] at h ⊢
      tauto
    · split
      · simp [List.mem_append] at h ⊢
        tauto
      · split
        · simp [List.mem_append] at h ⊢
          tauto
        · split
          · simp [List.mem_append] at h ⊢
            tauto
          · simp [List.mem_append] at h ⊢
            tauto

theorem tryBody_no_followUp (env : Env) (prompt : String) (effs : List Effect)
    (h : Effect.followUpCall ∉ effs) :
    Effect.followUpCall ∉ (tryBody env prompt effs).2 := by
  intro hmem
  simp only [tryBody] at hmem
  split at hmem
  · simp [List.mem_append] at hmem
    exact h hmem
  · split at hmem
    · simp only [hitResponse] at hmem
      simp [List.mem_append] at hmem
      exact h hmem
    · simp only [hitResponse] at hmem
      simp [List.mem_append] at hmem
      exact h hmem
    · split at hmem
      · simp [List.mem_append] at hmem
        exact h hmem
      · split at hmem
        · simp [List.mem_append] at hmem
          exact h hmem
        · split at hmem
          · simp [List.mem_append] at hmem
            exact h hmem
          · rename_i res heq
            have hres := cacheAdd_ok_no_followUp _ _ _ _ _ _ _ _ heq
            simp [List.mem_append] at hmem
            tauto

theorem tryBody_never_follow_up_path (env : Env) (prompt : String)
    (effs : List Effect) :
    ∀ sc b, (tryBody env prompt effs).1 ≠
      Outcome.response ExitPath.followUpAnswered sc b := by
  intro sc b
  simp only [tryBody]
  split
  · simp
  · split
    · simp [hitResponse]
    · simp [hitResponse]
    · split
      · simp
      · split
        · simp
        · split
          · simp
          · simp

/-! ## Claim theorems -/

/-- C1 (code_bug evidence): when the generation response contains no
parseable `<sql>` block, get_sql_from_bedrock returns its statusCode-500
error dict, but every value it can return is truthy in Python, so the
handler's `if not sql:` guard (the only place the 500 body could be
returned from the miss path) never fires; the dict flows into
`execute_sql`, where `cursor.execute` raises an uncaught TypeError and the
request fails at the transport level instead of resolving to a JSON
response with statusCode 500. -/
theorem no_sql_block_yields_uncaught_type_error :
    (∀ g : GenResult, g.pyTruthy = true)
    ∧ get_sql_from_bedrock (fun _ => none) "I cannot write SQL for this."
        = GenResult.errorDict
    ∧ (lambda_handler noSqlEnv "List users" none).1
        = Outcome.exception PyError.typeError :=
  ⟨fun g => by cases g <;> rfl, rfl, rfl⟩

/-- C2 (code_bug evidence): with a valid database name ("postgres") and an
invalid, reserved-word schema name ("select"), the guard
`if not (valid(db) or valid(schema))` does not fire: the request is not
rejected, a database connection is opened, and the request completes
normally — contradicting "if either one is invalid the request fails
immediately, before any database connection is opened". -/
theorem invalid_schema_alone_not_rejected :
    is_valid_postgres_identifier "select" = false
    ∧ is_valid_postgres_identifier "postgres" = true
    ∧ Effect.dbConnect ∈ (lambda_handler badSchemaEnv "List users" none).2
    ∧ ∃ b, (lambda_handler badSchemaEnv "List users" none).1
        = Outcome.response ExitPath.cacheMiss 200 b :=
  ⟨by decide, by decide, by decide, ⟨_, rfl⟩⟩

/-- C3 (code_bug evidence): with the cache cluster unreachable,
connect_to_cluster swallows the exception (logs it, leaves the client
unset), but the very next cache operation — search — raises AttributeError,
which nothing catches, so the request fails instead of proceeding as a
cache miss with an empty lookup result. -/
theorem cache_cluster_unreachable_fails_request :
    connect_to_cluster false false = (false, true)
    ∧ cacheSearch false true [] = Except.error PyError.attributeError
    ∧ (lambda_handler cacheDownEnv "List users" none).1
        = Outcome.exception PyError.attributeError :=
  ⟨rfl, rfl, rfl⟩

/-- C4: the two-tier admission policy on the lookup results. An entry whose
stored prompt equals the incoming prompt is selected regardless of score;
with no exact match, the single top entry is selected iff its score is ≥
0.85, otherwise the cache reports a miss; and score-based admission can
only ever select the first entry of the lookup list. -/
theorem cache_admission_two_tier (lookup : List CacheEntry) (prompt : String) :
    ((∃ e ∈ lookup, e.prompt_text = some prompt) →
      ∃ e ∈ lookup, e.prompt_text = some prompt ∧
        cacheDecision lookup prompt = CacheDecision.exact e)
    ∧ (∀ top rest, lookup = top :: rest →
        (∀ e ∈ lookup, e.prompt_text ≠ some prompt) →
        ((VECTOR_SCORE_THRESHOLD ≤ top.vector_score →
            cacheDecision lookup prompt = CacheDecision.vector top)
          ∧ (top.vector_score < VECTOR_SCORE_THRESHOLD →
            cacheDecision lookup prompt = CacheDecision.miss)))
    ∧ (∀ e, cacheDecision lookup prompt = CacheDecision.vector e →
        lookup.head? = some e) := by
  refine ⟨?_, ?_, ?_⟩
  · rintro ⟨e0, he0, hp0⟩
    cases hfe : findExactMatch lookup prompt with
    | none =>
      exact absurd hp0 ((foldl_exact_eq_none lookup none hfe).2 e0 he0)
    | some e =>
      rcases foldl_exact_eq_some lookup none e hfe with ⟨hmem, hp⟩ | habs
      · exact ⟨e, hmem, hp, by simp [cacheDecision, hfe]⟩
      · cases habs
  · intro top rest hl hno
    have hfe : findExactMatch lookup prompt = none := foldl_exact_const lookup none hno
    subst hl
    constructor
    · intro hge
      simp [cacheDecision, hfe, if_pos hge]
    · intro hlt
      simp [cacheDecision, hfe, if_neg (not_le.mpr hlt)]
  · intro e h
    cases hfe : findExactMatch lookup prompt with
    | some x =>
      rw [show cacheDecision lookup prompt = CacheDecision.exact x by
        simp [cacheDecision, hfe]] at h
      cases h
    | none =>
      cases lookup with
      | nil =>
        rw [show cacheDecision [] prompt = CacheDecision.miss by
          simp [cacheDecision, hfe]] at h
        cases h
      | cons top rest =>
        by_cases hge : VECTOR_SCORE_THRESHOLD ≤ top.vector_score
        · rw [show cacheDecision (top :: rest) prompt = CacheDecision.vector top by
            simp [cacheDecision, hfe, hge]] at h
          injection h with h2
          rw [← h2]
          rfl
        · rw [show cacheDecision (top :: rest) prompt = CacheDecision.miss by
            simp [cacheDecision, hfe, hge]] at h
          cases h

/-- Witness for C4: in a lookup list whose top entry scores 0.97 for a
different prompt, the lower-scored entry storing the incoming prompt
verbatim is the one selected. -/
theorem cache_admission_two_tier_witness :
    ∃ e ∈ demoLookup, e.prompt_text = some "How many users are there" ∧
      cacheDecision demoLookup "How many users are there" = CacheDecision.exact e :=
  (cache_admission_two_tier demoLookup "How many users are there").1 (by decide)

/-- C5: when the follow-up classifier returns `is_follow_up=true` on a
non-empty conversation context, the handler returns at once: the only
effect is the classification call (no DB connection, no embedding, no
cache access), the response's query field is the fixed sentinel and its
query_results is the empty list. -/
theorem follow_up_short_circuit (env : Env) (prompt : String)
    (ctxOpt : Option (List (String × String)))
    (h1 : (ctxOpt.getD []).isEmpty = false)
    (h2 : (env.followUpOf (mkFullPrompt (ctxOpt.getD []) prompt)).1 = true) :
    lambda_handler env prompt ctxOpt =
      (Outcome.response ExitPath.followUpAnswered 200
        { response := (env.followUpOf (mkFullPrompt (ctxOpt.getD []) prompt)).2,
          query := some (PyVal.str "Follow-up question answered directly"),
          query_results := some (PyVal.list []),
          column_names := none,
          cache_id := some PyVal.pyNone },
       [Effect.followUpCall]) := by
  simp [lambda_handler, h1, h2]

/-- Witness for C5 at a concrete follow-up request. -/
theorem follow_up_short_circuit_witness :
    lambda_handler followUpEnv "How many was that" (some [("Human", "hi")]) =
      (Outcome.response ExitPath.followUpAnswered 200
        { response := PyVal.str "Answered from context",
          query := some (PyVal.str "Follow-up question answered directly"),
          query_results := some (PyVal.list []),
          column_names := none,
          cache_id := some PyVal.pyNone },
       [Effect.followUpCall]) :=
  follow_up_short_circuit followUpEnv "How many was that" (some [("Human", "hi")]) rfl rfl

/-- C6: a cache write whose record has an empty natural-language answer
returns False without raising and performs no store mutation: no key is
set and no expiry is installed. -/
theorem cache_add_rejects_empty_answer (client clusterUp hsetOk : Bool)
    (sha : String → String) (key : String) (data : CacheData) (ns : String)
    (h : data.text_response = "") :
    cacheAdd client clusterUp hsetOk sha key data ns = Except.ok (false, []) := by
  unfold cacheAdd
  rw [if_pos h]

/-- Witness for C6 at a concrete empty-answer record. -/
theorem cache_add_rejects_empty_answer_witness :
    cacheAdd true true true (fun _ => "4099728c") "How many users are there"
      demoEmptyAnswerData "cache" = Except.ok (false, []) :=
  cache_add_rejects_empty_answer true true true (fun _ => "4099728c")
    "How many users are there" demoEmptyAnswerData "cache" rfl

/-- C7: schema retrieval never returns a descriptor with similarity ≤ 0.10,
returns at most top_k descriptors, and returns them ranked by similarity
descending. -/
theorem compare_embeddings_floor_topk_sorted (stored : List SchemaRow) (k : Nat) :
    (∀ r ∈ compare_embeddings stored k, mkRat 1 10 < r.similarity)
    ∧ (compare_embeddings stored k).length ≤ k
    ∧ List.Sorted simDescRel (compare_embeddings stored k) := by
  refine ⟨?_, ?_, ?_⟩
  · intro r hr
    exact of_decide_eq_true (List.mem_filter.mp hr).2
  · calc (compare_embeddings stored k).length
        ≤ ((List.insertionSort simDescRel stored).take k).length :=
          List.length_filter_le _ _
      _ ≤ k := by rw [List.length_take]; exact min_le_left _ _
  · have hs : List.Sorted simDescRel (List.insertionSort simDescRel stored) :=
      List.sorted_insertionSort _ _
    have hsub : List.Sublist (compare_embeddings stored k)
        (List.insertionSort simDescRel stored) :=
      (List.filter_sublist _).trans (List.take_sublist _ _)
    exact List.Pairwise.sublist hsub hs

/-- Witness for C7: on a concrete stored index, a surviving row is above the
floor and the result respects top_k. -/
theorem compare_embeddings_floor_topk_sorted_witness :
    mkRat 1 10 < demoRowHigh.similarity
    ∧ (compare_embeddings demoSchemaRows 5).length ≤ 5 :=
  ⟨(compare_embeddings_floor_topk_sorted demoSchemaRows 5).1 demoRowHigh (by decide),
   (compare_embeddings_floor_topk_sorted demoSchemaRows 5).2.1⟩

/-- Self-match of the store_embeddings key tuple. -/
theorem sameKey_self (d : EmbRow) : sameKey d d = true := by
  simp [sameKey]

/-- One upsert after another with the same descriptor is a no-op. -/
theorem upsertEmbedding_idem (t : List EmbRow) (d : EmbRow) :
    upsertEmbedding (upsertEmbedding t d) d = upsertEmbedding t d := by
  by_cases h : (t.any fun r => sameKey r d) = true
  · simp only [upsertEmbedding, if_pos h]
  · have h' : (t.any fun r => sameKey r d) = false := by
      cases hb : t.any fun r => sameKey r d
      · rfl
      · exact absurd hb h
    simp only [upsertEmbedding, h', if_neg, Bool.false_eq_true, if_false]
    have happ : ((t ++ [d]).any fun r => sameKey r d) = true :=
      List.any_eq_true.mpr ⟨d, List.mem_append_right _ (List.mem_singleton.mpr rfl),
        sameKey_self d⟩
    rw [if_pos happ]

/-- C8: the indexing upsert is idempotent. A descriptor whose key tuple
(database, schema, table, content hash) already has a stored row is a
no-op; running the upsert twice equals running it once; and starting from
a table with no matching row, two invocations leave exactly one stored
row for the tuple. -/
theorem store_embeddings_idempotent (t : List EmbRow) (d : EmbRow) :
    ((∃ r ∈ t, sameKey r d = true) → upsertEmbedding t d = t)
    ∧ upsertEmbedding (upsertEmbedding t d) d = upsertEmbedding t d
    ∧ store_embeddings (store_embeddings t [d]) [d] = store_embeddings t [d]
    ∧ (countKey t d = 0 →
        countKey (upsertEmbedding (upsertEmbedding t d) d) d = 1) := by
  refine ⟨?_, upsertEmbedding_idem t d, ?_, ?_⟩
  · rintro ⟨r, hr, hk⟩
    have hany : (t.any fun x => sameKey x d) = true := List.any_eq_true.mpr ⟨r, hr, hk⟩
    unfold upsertEmbedding
    rw [if_pos hany]
  · simp only [store_embeddings, List.foldl_cons, List.foldl_nil]
    exact upsertEmbedding_idem t d
  · intro h0
    have hflt : (t.filter fun r => sameKey r d) = [] := by
      rwa [countKey, List.length_eq_zero] at h0
    have hany : (t.any fun r => sameKey r d) = false := by
      cases hb : t.any fun r => sameKey r d
      · rfl
      · obtain ⟨r, hr, hk⟩ := List.any_eq_true.mp hb
        have : r ∈ t.filter fun x => sameKey x d := List.mem_filter.mpr ⟨hr, hk⟩
        rw [hflt] at this
        cases this
    rw [upsertEmbedding_idem t d]
    simp only [upsertEmbedding, hany, Bool.false_eq_true, if_false]
    simp [countKey, List.filter_append, hflt, sameKey_self]

/-- Witness for C8: double-upsert of a concrete descriptor into an empty
table leaves exactly one row, and upserting into a table that already holds
the descriptor is a no-op. -/
theorem store_embeddings_idempotent_witness :
    upsertEmbedding [demoEmbRow] demoEmbRow = [demoEmbRow]
    ∧ countKey (upsertEmbedding (upsertEmbedding [] demoEmbRow) demoEmbRow)
        demoEmbRow = 1 :=
  ⟨(store_embeddings_idempotent [demoEmbRow] demoEmbRow).1
      ⟨demoEmbRow, by decide, by decide⟩,
   (store_embeddings_idempotent [] demoEmbRow).2.2.2 (by decide)⟩

/-- C9: serializing a float32 vector to its wire form yields exactly 4
bytes per element, and reading the bytes back recovers every element's
float32 value exactly (elements are modelled by their 32-bit IEEE-754
patterns, i.e. up to the single-precision rounding already performed by
the narrowing conversion). -/
theorem vector_bytes_roundtrip (v : List Nat) (h : ∀ w ∈ v, w < 4294967296) :
    (vector_to_bytes v).length = 4 * v.length
    ∧ bytesToWords (vector_to_bytes v) = v := by
  induction v with
  | nil => exact ⟨rfl, rfl⟩
  | cons w ws ih =>
    obtain ⟨ih1, ih2⟩ := ih fun x hx => h x (List.mem_cons_of_mem _ hx)
    have hw := h w (List.mem_cons_self _ _)
    have hbytes : vector_to_bytes (w :: ws) =
        w % 256 :: (w / 256 % 256) :: (w / 65536 % 256) :: (w / 16777216 % 256) ::
          vector_to_bytes ws := by
      simp [vector_to_bytes, word32ToLEBytes]
    constructor
    · rw [hbytes]
      simp only [List.length_cons, ih1, List.length_cons]
      omega
    · rw [hbytes]
      simp only [bytesToWords, ih2]
      have hword : w % 256 + 256 * (w / 256 % 256) + 65536 * (w / 65536 % 256)
          + 16777216 * (w / 16777216 % 256) = w := by omega
      rw [hword]

/-- Witness for C9: a 3-element vector serializes to exactly 12 bytes and
round-trips. -/
theorem vector_bytes_roundtrip_witness :
    (vector_to_bytes demoVector).length = 12
    ∧ bytesToWords (vector_to_bytes demoVector) = demoVector :=
  vector_bytes_roundtrip demoVector (by decide)

/-- C10: a request with an absent or empty conversation_context never
invokes the follow-up classifier and can never terminate as an
answered-directly follow-up; identifier validation is always evaluated,
and (when validation lets it through and the database connects) the
request goes on to open the DB connection, compute the embedding and
perform the cache lookup. -/
theorem empty_context_never_follow_up (env : Env) (prompt : String)
    (ctxOpt : Option (List (String × String))) (h : ctxOpt.getD [] = []) :
    Effect.followUpCall ∉ (lambda_handler env prompt ctxOpt).2
    ∧ Effect.validateIdentifiers ∈ (lambda_handler env prompt ctxOpt).2
    ∧ (∀ sc b, (lambda_handler env prompt ctxOpt).1 ≠
        Outcome.response ExitPath.followUpAnswered sc b)
    ∧ ((is_valid_postgres_identifier env.dbName
          || is_valid_postgres_identifier env.dbSchema) = true →
        env.dbConnectOk = true →
        Effect.dbConnect ∈ (lambda_handler env prompt ctxOpt).2
        ∧ Effect.embedCall ∈ (lambda_handler env prompt ctxOpt).2
        ∧ Effect.cacheSearchCall ∈ (lambda_handler env prompt ctxOpt).2) := by
  have hred : lambda_handler env prompt ctxOpt = handlerMain env prompt [] := by
    simp [lambda_handler, h]
  rw [hred]
  by_cases hg : (is_valid_postgres_identifier env.dbName
      || is_valid_postgres_identifier env.dbSchema) = false
  · refine ⟨?_, ?_, ?_, ?_⟩
    · simp [handlerMain, hg]
    · simp [handlerMain, hg]
    · intro sc b
      simp [handlerMain, hg]
    · intro ht
      rw [hg] at ht
      cases ht
  · have hg' : (is_valid_postgres_identifier env.dbName
        || is_valid_postgres_identifier env.dbSchema) = true :=
      eq_true_of_ne_false hg
    by_cases hdb : env.dbConnectOk = false
    · refine ⟨?_, ?_, ?_, ?_⟩
      · simp [handlerMain, hg', hdb]
      · simp [handlerMain, hg', hdb]
      · intro sc b
        simp [handlerMain, hg', hdb]
      · intro _ ht
        rw [hdb] at ht
        cases ht
    · have hdb' : env.dbConnectOk = true := eq_true_of_ne_false hdb
      have hmain : handlerMain env prompt [] =
          tryBody env prompt
            [Effect.validateIdentifiers, Effect.setSecret, Effect.dbConnect] := by
        simp [handlerMain, hg', hdb']
      rw [hmain]
      refine ⟨?_, ?_, ?_, ?_⟩
      · exact tryBody_no_followUp env prompt _ (by decide)
      · exact tryBody_mem_effsA env prompt _ _ (by decide)
      · exact tryBody_never_follow_up_path env prompt _
      · intro _ _
        exact ⟨tryBody_mem_effsA env prompt _ _ (by decide),
               tryBody_mem_effsA env prompt _ _ (by decide),
               tryBody_mem_effsA env prompt _ _ (by decide)⟩

/-- Witness for C10 at a concrete absent-context request. -/
theorem empty_context_never_follow_up_witness :
    Effect.followUpCall ∉ (lambda_handler baseEnv "List users" none).2
    ∧ Effect.dbConnect ∈ (lambda_handler baseEnv "List users" none).2 :=
  ⟨(empty_context_never_follow_up baseEnv "List users" none rfl).1,
   ((empty_context_never_follow_up baseEnv "List users" none rfl).2.2.2
      (by decide) rfl).1⟩

end PgTextToSql
